import Mathlib

/-!
Verification of the GameAutomation repository against its specification.

Shallow embedding of the core logic of:
* src/find_coordinates.py (coordinate scaling, template-matching lookups),
* src/avatar_message_block_detection.py (avatar template matching, duplicate removal),
* src/message_text_extractor.py (classification-gateway error handling),
* src/action_automation.py (avatar-keyword-click action, plan interpreter,
  coordinate listing), with src/config.py (the shipped COORDINATES table).

Machine integers are modelled as `Int`/`Nat`; Python floats that only enter the
program through comparisons and truncations are modelled as `ℚ` with the exact
comparison semantics spelled out at each definition.  Fallible code returns
`Except`/`Option`.  External library kernels (the OpenCV correlation kernel,
the network, the remote classifier) are modelled as explicit inputs; the
control flow around them is translated from the source.
-/

namespace GameAutomation

/-! ## Coordinate scaler (src/find_coordinates.py, lines 40-76) -/

/-- Python `int()` applied to a rational value: truncation toward zero
(`Int.tdiv` is the truncating division). -/
def pyInt (q : ℚ) : Int := q.num.tdiv q.den

/-- `logical_to_physical_coords` (src/find_coordinates.py lines 40-57):
`physical = int(logical * scaling_factor)` on each axis. -/
def logical_to_physical_coords (logical_x logical_y : Int) (scaling_factor : ℚ) :
    Int × Int :=
  (pyInt (logical_x * scaling_factor), pyInt (logical_y * scaling_factor))

/-- `physical_to_logical_coords` (src/find_coordinates.py lines 59-76):
`logical = int(physical / scaling_factor)` on each axis. -/
def physical_to_logical_coords (physical_x physical_y : Int) (scaling_factor : ℚ) :
    Int × Int :=
  (pyInt ((physical_x : ℚ) / scaling_factor), pyInt ((physical_y : ℚ) / scaling_factor))

/-! ## Template matcher
(src/avatar_message_block_detection.py lines 56-107,
 src/find_coordinates.py lines 154-267) -/

/-- A pixel buffer: only its dimensions matter to the control flow that the
claims concern; the pixel contents feed the external OpenCV correlation kernel,
which is passed in as a score function. -/
structure Image where
  height : Nat
  width : Nat
deriving DecidableEq

/-- The error `cv2.matchTemplate` raises (an OpenCV assertion failure) when a
template dimension strictly exceeds the corresponding capture dimension. -/
inductive CvError where
| dimensionTooLarge : CvError
deriving DecidableEq

/-- `cv2.matchTemplate(capture, template, TM_CCOEFF_NORMED)`: raises when the
template is wider or taller than the capture, otherwise yields a
`(H-h+1) × (W-w+1)` score matrix.  The normalized cross-correlation scores are
computed by the external OpenCV kernel and are supplied here as the function
`score` (row, column ↦ score). -/
def matchTemplate (capture tpl : Image) (score : Nat → Nat → ℚ) :
    Except CvError (Nat × Nat × (Nat → Nat → ℚ)) :=
  if capture.height < tpl.height ∨ capture.width < tpl.width then
    .error .dimensionTooLarge
  else
    .ok (capture.height - tpl.height + 1, capture.width - tpl.width + 1, score)

/-- The row-major enumeration of the positions of an `rh × rw` result matrix,
matching the order in which `np.where(result >= confidence)` lists matches. -/
def rowMajorPositions (rh rw : Nat) : List (Nat × Nat) :=
  (List.range rh).flatMap (fun r => (List.range rw).map (fun c => (r, c)))

/-- One avatar detection record as built by `find_avatar_by_template`
(src/avatar_message_block_detection.py lines 92-101). -/
structure Detection where
  x : Nat
  y : Nat
  width : Nat
  height : Nat
  confidence : ℚ
  center_x : Nat
  center_y : Nat
deriving DecidableEq

/-- The detection built for a match of template `tpl` at matrix position
(row `r`, column `c`) with score `s r c`
(src/avatar_message_block_detection.py lines 89-103). -/
def mkDetection (tpl : Image) (s : Nat → Nat → ℚ) (r c : Nat) : Detection :=
  { x := c, y := r, width := tpl.width, height := tpl.height,
    confidence := s r c,
    center_x := c + tpl.width / 2, center_y := r + tpl.height / 2 }

/-- All detections of one template: every matrix position whose score is `≥`
the confidence threshold, in row-major scan order
(src/avatar_message_block_detection.py lines 85-103). -/
def templateDetections (tpl : Image) (rh rw : Nat) (s : Nat → Nat → ℚ)
    (confidence : ℚ) : List Detection :=
  (rowMajorPositions rh rw).filterMap
    (fun p => if confidence ≤ s p.1 p.2 then some (mkDetection tpl s p.1 p.2) else none)

/-- `find_avatar_by_template` (src/avatar_message_block_detection.py lines
56-107).  Missing or unloadable template files yield an empty list; the
`cv2.matchTemplate` call is NOT wrapped in a try/except in this function, so a
dimension error escapes to the caller (`Except.error`).  `templateExists`
models `os.path.exists(template_path)` and `loadOk` models
`cv2.imread` succeeding. -/
def find_avatar_by_template (templateExists loadOk : Bool) (capture tpl : Image)
    (score : Nat → Nat → ℚ) (confidence : ℚ) : Except CvError (List Detection) :=
  if templateExists = false then .ok []
  else if loadOk = false then .ok []
  else
    match matchTemplate capture tpl score with
    | .error e => .error e
    | .ok (rh, rw, s) => .ok (templateDetections tpl rh rw s confidence)

/-- `find_all_icon_coordinates` (src/find_coordinates.py lines 218-267): same
all-matches scan, but the whole body sits inside `try: ... except Exception:
return []`, so a `cv2` dimension error is converted into an empty list.
Returned values are the template-center coordinates of each match. -/
def find_all_icon_coordinates (templateExists loadOk : Bool) (capture tpl : Image)
    (score : Nat → Nat → ℚ) (confidence : ℚ) : List (Nat × Nat) :=
  if templateExists = false then []
  else if loadOk = false then []
  else
    match matchTemplate capture tpl score with
    | .error _ => []
    | .ok (rh, rw, s) =>
        (rowMajorPositions rh rw).filterMap
          (fun p => if confidence ≤ s p.1 p.2 then
            some (p.2 + tpl.width / 2, p.1 + tpl.height / 2) else none)

/-- The maximum entry of the score matrix, as reported by `cv2.minMaxLoc`
(`max_val`).  The matrix of a successful `matchTemplate` is never empty
(`rh, rw ≥ 1`), and `s 0 0` is one of its entries. -/
def matrixMax (rh rw : Nat) (s : Nat → Nat → ℚ) : ℚ :=
  ((rowMajorPositions rh rw).map (fun p => s p.1 p.2)).foldl max (s 0 0)

/-- The position of the maximum entry, as reported by `cv2.minMaxLoc`
(`max_loc`, returned as (column, row)). -/
def matrixMaxLoc (rh rw : Nat) (s : Nat → Nat → ℚ) : Nat × Nat :=
  match (rowMajorPositions rh rw).find? (fun p => decide (s p.1 p.2 = matrixMax rh rw s)) with
  | some p => (p.2, p.1)
  | none => (0, 0)

/-- `find_icon_coordinates` (src/find_coordinates.py lines 154-215): best-match
mode.  The body is wrapped in `try/except` returning `None`, so a `cv2` error
yields `none`; otherwise the single best-scoring position is gated on
`max_val < confidence → None`, and on success the template-center coordinates
of the best match are returned. -/
def find_icon_coordinates (templateExists loadOk : Bool) (capture tpl : Image)
    (score : Nat → Nat → ℚ) (confidence : ℚ) : Option (Nat × Nat) :=
  if templateExists = false then none
  else if loadOk = false then none
  else
    match matchTemplate capture tpl score with
    | .error _ => none
    | .ok (rh, rw, s) =>
        if matrixMax rh rw s < confidence then none
        else
          some ((matrixMaxLoc rh rw s).1 + tpl.width / 2,
                (matrixMaxLoc rh rw s).2 + tpl.height / 2)

/-! ## Duplicate resolver (src/avatar_message_block_detection.py lines 266-299) -/

/-- The fields of a detection record that `remove_duplicate_detections` reads
and compares (`detection['avatar']` center coordinates and confidence). -/
structure DDetection where
  center_x : ℚ
  center_y : ℚ
  confidence : ℚ
deriving DecidableEq

/-- The proximity test `np.sqrt(dx**2 + dy**2) < min_distance`
(src/avatar_message_block_detection.py lines 283-286).  For a real square root,
`sqrt t < m` with `t ≥ 0` holds exactly when `0 < m` and `t < m²`, which is the
rational form used here. -/
def closeTo (a b : DDetection) (min_distance : ℚ) : Bool :=
  decide (0 < min_distance ∧
    (a.center_x - b.center_x) ^ 2 + (a.center_y - b.center_y) ^ 2 < min_distance ^ 2)

/-- One iteration of the accumulation loop (src/avatar_message_block_detection.py
lines 275-296): scan the accepted list for the first detection within
`min_distance`; if the newcomer has strictly higher confidence, remove that
detection and append the newcomer at the end, otherwise drop the newcomer; if
no accepted detection is close, append the newcomer. -/
def dedupeStep (min_distance : ℚ) (unique : List DDetection) (d : DDetection) :
    List DDetection :=
  match unique.find? (fun e => closeTo d e min_distance) with
  | none => unique ++ [d]
  | some e =>
      if e.confidence < d.confidence then (unique.erase e) ++ [d] else unique

/-- `remove_duplicate_detections` (src/avatar_message_block_detection.py lines
266-299): lists of at most one detection are returned unchanged, otherwise the
greedy accumulation runs over the input in order. -/
def remove_duplicate_detections (detections : List DDetection)
    (min_distance : ℚ) : List DDetection :=
  if detections.length ≤ 1 then detections
  else detections.foldl (dedupeStep min_distance) []

/-! ## Classification gateway (src/message_text_extractor.py lines 175-494) -/

/-- The assistant-content layer of a well-formed HTTP body: either the content
string parses as JSON (`json.loads` succeeds; the `.get` defaults of lines
286-288 are already applied), or `json.loads` raises `JSONDecodeError` and the
plain-text fallback heuristic fires (`'是' in text or 'true' in text.lower() or
'相关' in text`, lines 297 / 459), recorded here as `heuristicRelated`. -/
inductive ContentParse where
| parsed (is_related : Bool) (confidence : Int) : ContentParse
| fallback (heuristicRelated : Bool) : ContentParse
deriving DecidableEq

/-- The HTTP response body as seen by the code: `response.json()` raises (the
body is not valid JSON), or it parses but carries no non-empty `choices` list,
or it carries a first choice whose content is described by `ContentParse`. -/
inductive BodyParse where
| raisesOnParse : BodyParse
| noChoices : BodyParse
| content (c : ContentParse) : BodyParse
deriving DecidableEq

/-- The outcome of `requests.post`: the call raises (network failure, timeout),
or returns a response with a status code and a body. -/
inductive HttpOutcome where
| requestRaises : HttpOutcome
| response (status : Int) (body : BodyParse) : HttpOutcome
deriving DecidableEq

/-- The fields of the dictionary returned by `contains_keyword` that the claims
concern.  `hasError` records whether the dictionary carries an `error` key. -/
structure SingleVerdict where
  is_related : Bool
  confidence : Int
  hasError : Bool
deriving DecidableEq

/-- The fields of the dictionary returned by `contains_any_keyword`. -/
structure MultiVerdict where
  is_related_to_any : Bool
  confidence : Int
  hasError : Bool
deriving DecidableEq

/-- `MessageTextExtractor.contains_keyword` (src/message_text_extractor.py
lines 175-328).  Every exceptional path of the source is caught inside the
function (the whole network/parse section sits in `try: ... except Exception`),
so the embedding is a total function: no exception reaches the caller.
`imgValid` models `image is not None and image.size != 0`; `hasKey` models
`self.api_key` being set. -/
def contains_keyword (imgValid hasKey : Bool) (http : HttpOutcome) : SingleVerdict :=
  if imgValid = false then ⟨false, 0, true⟩
  else if hasKey = false then ⟨false, 0, true⟩
  else
    match http with
    | .requestRaises => ⟨false, 0, true⟩
    | .response status body =>
        if status = 200 then
          match body with
          | .raisesOnParse => ⟨false, 0, true⟩
          | .noChoices => ⟨false, 0, true⟩
          | .content (.parsed r conf) => ⟨r, conf, false⟩
          | .content (.fallback yes) => ⟨yes, if yes then 80 else 20, false⟩
        else ⟨false, 0, true⟩

/-- `MessageTextExtractor.contains_any_keyword` (src/message_text_extractor.py
lines 330-494): identical control flow with the `is_related_to_any` field. -/
def contains_any_keyword (imgValid hasKey : Bool) (http : HttpOutcome) : MultiVerdict :=
  if imgValid = false then ⟨false, 0, true⟩
  else if hasKey = false then ⟨false, 0, true⟩
  else
    match http with
    | .requestRaises => ⟨false, 0, true⟩
    | .response status body =>
        if status = 200 then
          match body with
          | .raisesOnParse => ⟨false, 0, true⟩
          | .noChoices => ⟨false, 0, true⟩
          | .content (.parsed r conf) => ⟨r, conf, false⟩
          | .content (.fallback yes) => ⟨yes, if yes then 80 else 20, false⟩
        else ⟨false, 0, true⟩

/-! ## Avatar keyword click action (src/action_automation.py lines 108-329) -/

/-- The chat region in logical coordinates
(src/avatar_message_block_detection.py line 16). -/
def CHAT_AREA : Int × Int × Int × Int := (660, 145, 935, 496)

/-- The fixed display scale factor
(src/avatar_message_block_detection.py line 17). -/
def SCALE_FACTOR : Int := 2

/-- The keyword verdict as the action reads it (src/action_automation.py lines
199-200): `keyword_result.get('is_related', False)`,
`keyword_result.get('is_related_to_any', False)` and
`keyword_result.get('confidence', 0)`, with the `.get` defaults applied. -/
structure KwVerdict where
  is_related : Bool
  is_related_to_any : Bool
  confidence : Int
deriving DecidableEq

/-- One detected avatar as the action's per-detection loop sees it: the
recommended click point in chat-relative physical coordinates
(`detection['click_coordinates']['recommended']`) and the gateway verdict the
loop obtains for its text region.  The avatar-metadata fields the loop only
prints are omitted. -/
structure AvatarDetection where
  clickX : Int
  clickY : Int
  verdict : KwVerdict
deriving DecidableEq

/-- The acceptance test of src/action_automation.py line 210:
`is_related and confidence_score >= 70`, where `is_related` is the merged flag
of line 199. -/
def detectionQualifies (d : AvatarDetection) : Bool :=
  (d.verdict.is_related || d.verdict.is_related_to_any) &&
    decide (70 ≤ d.verdict.confidence)

/-- The coordinate dictionary built on acceptance (src/action_automation.py
lines 225-255).  Python `//` is floor division, hence `Int.fdiv`. -/
structure CoordBundle where
  x : Int
  y : Int
  physical_x : Int
  physical_y : Int
  chat_relative_x : Int
  chat_relative_y : Int
  keyword_info : KwVerdict
deriving DecidableEq

/-- Build the coordinate bundle for an accepted detection
(src/action_automation.py lines 225-255):
`physical = chat_origin * SCALE_FACTOR + chat_relative`,
`logical = physical // SCALE_FACTOR`. -/
def mkCoordBundle (d : AvatarDetection) : CoordBundle :=
  let physX : Int := CHAT_AREA.1 * SCALE_FACTOR + d.clickX
  let physY : Int := CHAT_AREA.2.1 * SCALE_FACTOR + d.clickY
  { x := Int.fdiv physX SCALE_FACTOR
    y := Int.fdiv physY SCALE_FACTOR
    physical_x := physX
    physical_y := physY
    chat_relative_x := d.clickX
    chat_relative_y := d.clickY
    keyword_info := d.verdict }

/-- The value returned by `execute_avatar_keyword_click_action`: `True`,
`False`, or the coordinate dictionary when `return_coordinates` is set. -/
inductive ClickOutcome where
| success : ClickOutcome
| failure : ClickOutcome
| coords (b : CoordBundle) : ClickOutcome
deriving DecidableEq

/-- The scroll-and-retry recursion (src/action_automation.py lines 155-329),
re-expressed on the remaining number of scroll attempts `r = max_scroll_attempts
- k` so that it is structurally recursive; `k` is the absolute attempt index
(`_current_scroll_attempt`).  The source test `current_scroll_attempt <
max_scroll_attempts` holds exactly when `r > 0`.  One search pass scans its
detections in order and accepts the first one passing `detectionQualifies`
(the loop of lines 174-282 returns inside the first qualifying iteration);
on acceptance the code ALWAYS issues `pyautogui.click` (lines 263-266) and
then returns the bundle or `True` depending on `return_coordinates` (lines
269-276).  If no detection qualifies, the action scrolls (when attempts
remain and `pyautogui` is available and the scroll call does not raise,
modelled by `scrollOk`) and recurses with `k+1`, or returns `False`.
The result is the returned value, the number of search passes performed, and
the list of pointer clicks issued (logical coordinates). -/
def keywordSearchLoop (passes : Nat → List AvatarDetection) (scrollOk : Nat → Bool)
    (return_coordinates : Bool) :
    Nat → Nat → ClickOutcome × Nat × List (Int × Int)
| r, k =>
    match (passes k).find? detectionQualifies with
    | some d =>
        let b := mkCoordBundle d
        (if return_coordinates then .coords b else .success, 1, [(b.x, b.y)])
    | none =>
        match r with
        | 0 => (.failure, 1, [])
        | r' + 1 =>
            if scrollOk k then
              let res := keywordSearchLoop passes scrollOk return_coordinates r' (k + 1)
              (res.1, res.2.1 + 1, res.2.2)
            else (.failure, 1, [])

/-- `ActionAutomation.execute_avatar_keyword_click_action`
(src/action_automation.py lines 108-294).  The guard flags model the early
returns: `AVATAR_KEYWORD_DETECTION_AVAILABLE` together with the text extractor
being initialized (`available`), a non-empty keyword list (`hasKeywords`), and
a non-empty avatar template list (`hasTemplates`); each failing guard returns
`False` before any search pass runs. -/
def execute_avatar_keyword_click_action (available hasKeywords hasTemplates : Bool)
    (passes : Nat → List AvatarDetection) (scrollOk : Nat → Bool)
    (return_coordinates : Bool) (max_scroll_attempts k : Nat) :
    ClickOutcome × Nat × List (Int × Int) :=
  if available = false then (.failure, 0, [])
  else if hasKeywords = false then (.failure, 0, [])
  else if hasTemplates = false then (.failure, 0, [])
  else keywordSearchLoop passes scrollOk return_coordinates (max_scroll_attempts - k) k

/-! ## Action plan interpreter (src/action_automation.py lines 471-514) -/

/-- The value one plan step's `execute_action` call produces: `True`, `False`,
or the coordinate dictionary that `avatar_keyword_click` can return. -/
inductive StepResult where
| ok : StepResult
| fail : StepResult
| coords (b : CoordBundle) : StepResult
deriving DecidableEq

/-- Python truthiness of a step result, as tested by
`if not self.execute_action(action)` (src/action_automation.py line 508):
`False` is falsy; `True` and the (always non-empty) coordinate dictionary are
truthy. -/
def stepTruthy : StepResult → Bool
| .fail => false
| _ => true

/-- The step loop of `ActionAutomation.execute_action_plan`
(src/action_automation.py lines 505-514), applied to the list of values the
successive actions would return: runs steps in order, stops at the first falsy
result returning `False`, returns `True` after the last step otherwise.  The
second component counts how many actions were actually executed. -/
def execute_action_plan : List StepResult → Bool × Nat
| [] => (true, 0)
| r :: rs =>
    if stepTruthy r then
      let p := execute_action_plan rs
      (p.1, p.2 + 1)
    else (false, 1)

/-! ## Coordinate listing (src/action_automation.py lines 542-548, src/config.py
lines 8-17) -/

/-- A value of the named-coordinate table: a template-path string or a literal
coordinate pair (src/config.py lines 8-17). -/
inductive PyCoordVal where
| str (s : String) : PyCoordVal
| pair (x y : Int) : PyCoordVal
deriving DecidableEq

/-- The exception class raised by a failing Python tuple unpacking. -/
inductive PyError where
| valueError : PyError
deriving DecidableEq

/-- Whether a table value survives the unpacking `name, (x, y) in
COORDINATES.items()`: a pair always does; a string does exactly when it has two
characters (a two-character string unpacks into its characters, any other
string raises `ValueError`). -/
def unpacksAsPair : PyCoordVal → Bool
| .pair _ _ => true
| .str s => s.length == 2

/-- `ActionAutomation.list_coordinates` (src/action_automation.py lines
542-548): iterates the table unpacking each value as `(x, y)`; the first value
that is not a two-element sequence raises `ValueError`.  Printing is the only
other effect, so the embedding returns `Except PyError Unit`. -/
def list_coordinates : List (String × PyCoordVal) → Except PyError Unit
| [] => .ok ()
| (_, .pair _ _) :: rest => list_coordinates rest
| (_, .str s) :: rest =>
    if s.length = 2 then list_coordinates rest else .error .valueError

/-- The shipped `COORDINATES` table (src/config.py lines 8-17), in source
order. -/
def COORDINATES : List (String × PyCoordVal) :=
  [("play_button", .str "game_elements/play_button.png"),
   ("start_game", .str "game_elements/start_game.png"),
   ("login_button", .str "game_elements/login_button.png"),
   ("shi_men_task", .str "game_elements/shimen_task_button.png"),
   ("any_place", .pair 1286 211),
   ("shi_men_task_go_finish", .str "game_elements/go_finish_shimen_icon.png"),
   ("dialogue_button", .str "game_elements/dialogue_icon.png"),
   ("join_team", .str "game_elements/join_team.png")]

/-! ## Helper lemmas -/

/-- On non-negative rationals, Python truncation agrees with the floor. -/
theorem pyInt_eq_floor (q : ℚ) (h : 0 ≤ q) : pyInt q = ⌊q⌋ := by
  have hn : 0 ≤ q.num := Rat.num_nonneg.mpr h
  have hq : ((q.num : ℚ) / (q.den : ℚ)) = q := Rat.num_div_den q
  rw [pyInt, Int.tdiv_eq_ediv hn (Int.natCast_nonneg _),
    ← Rat.floor_intCast_div_natCast q.num q.den, hq]

/-- One axis of the coordinate round trip: converting a non-negative logical
coordinate to physical space and back loses at most one unit. -/
theorem pyInt_round_trip_axis (x : Int) (f : ℚ) (hx : 0 ≤ x) (hf : 1 ≤ f) :
    x - 1 ≤ pyInt ((pyInt ((x : ℚ) * f) : ℚ) / f) ∧
      pyInt ((pyInt ((x : ℚ) * f) : ℚ) / f) ≤ x := by
  have hf0 : (0 : ℚ) < f := lt_of_lt_of_le one_pos hf
  have hxq : (0 : ℚ) ≤ (x : ℚ) := by exact_mod_cast hx
  have hxf : (0 : ℚ) ≤ (x : ℚ) * f := mul_nonneg hxq hf0.le
  have hpf : pyInt ((x : ℚ) * f) = ⌊(x : ℚ) * f⌋ := pyInt_eq_floor _ hxf
  have hp0 : (0 : Int) ≤ pyInt ((x : ℚ) * f) := by
    rw [hpf]; exact Int.floor_nonneg.mpr hxf
  have hq0 : (0 : ℚ) ≤ (pyInt ((x : ℚ) * f) : ℚ) / f := by
    apply div_nonneg _ hf0.le
    exact_mod_cast hp0
  have hres : pyInt ((pyInt ((x : ℚ) * f) : ℚ) / f) = ⌊(pyInt ((x : ℚ) * f) : ℚ) / f⌋ :=
    pyInt_eq_floor _ hq0
  have h1 : (x : ℚ) * f - 1 < (pyInt ((x : ℚ) * f) : ℚ) := by
    rw [hpf]
    exact_mod_cast Int.sub_one_lt_floor ((x : ℚ) * f)
  have h3 : (pyInt ((x : ℚ) * f) : ℚ) ≤ (x : ℚ) * f := by
    rw [hpf]; exact_mod_cast Int.floor_le ((x : ℚ) * f)
  constructor
  · rw [hres]
    apply Int.le_floor.mpr
    rw [le_div_iff₀ hf0]
    push_cast
    nlinarith
  · rw [hres]
    have h4 : (pyInt ((x : ℚ) * f) : ℚ) / f ≤ (x : ℚ) := by
      rw [div_le_iff₀ hf0]
      linarith
    calc ⌊(pyInt ((x : ℚ) * f) : ℚ) / f⌋ ≤ ⌊(x : ℚ)⌋ := Int.floor_le_floor h4
    _ = x := Int.floor_intCast x

/-- Membership in the row-major position enumeration. -/
theorem mem_rowMajorPositions (rh rw r c : Nat) :
    (r, c) ∈ rowMajorPositions rh rw ↔ r < rh ∧ c < rw := by
  simp [rowMajorPositions]

/-! ## Claim theorems -/

/-- C6: for every integer pair (x, y) with x, y ≥ 0 and every scaling factor
f ≥ 1, `physical_to_logical_coords` applied to
`logical_to_physical_coords (x, y, f)` differs from (x, y) by at most one unit
on each axis. -/
theorem C6_coordinate_round_trip (x y : Int) (f : ℚ)
    (hx : 0 ≤ x) (hy : 0 ≤ y) (hf : 1 ≤ f) :
    ((physical_to_logical_coords (logical_to_physical_coords x y f).1
        (logical_to_physical_coords x y f).2 f).1 - x).natAbs ≤ 1 ∧
    ((physical_to_logical_coords (logical_to_physical_coords x y f).1
        (logical_to_physical_coords x y f).2 f).2 - y).natAbs ≤ 1 := by
  have hax := pyInt_round_trip_axis x f hx hf
  have hay := pyInt_round_trip_axis y f hy hf
  simp only [logical_to_physical_coords, physical_to_logical_coords] at *
  omega

/-- Witness for C6 at (x, y) = (3, 5) and f = 2. -/
theorem C6_coordinate_round_trip_witness :
    ((physical_to_logical_coords (logical_to_physical_coords 3 5 2).1
        (logical_to_physical_coords 3 5 2).2 2).1 - 3).natAbs ≤ 1 ∧
    ((physical_to_logical_coords (logical_to_physical_coords 3 5 2).1
        (logical_to_physical_coords 3 5 2).2 2).2 - 5).natAbs ≤ 1 :=
  C6_coordinate_round_trip 3 5 2 (by norm_num) (by norm_num) (by norm_num)

/-- C3 counterexample: a 10×10 template against a 5×5 capture makes
`find_avatar_by_template` propagate the OpenCV dimension error to its caller
instead of returning an empty result list, refuting the claim for this
matcher. -/
theorem C3_counterexample_find_avatar_raises :
    find_avatar_by_template true true ⟨5, 5⟩ ⟨10, 10⟩ (fun _ _ => 0) (4/5) =
      .error .dimensionTooLarge := by
  rfl

/-- C3 (amended): for every capture and every template whose width or height
strictly exceeds the capture's, `find_all_icon_coordinates` returns an empty
list (its catch-all converts the OpenCV size error), while
`find_avatar_by_template` raises the OpenCV dimension error to its caller; the
error is absorbed only at the calling action's exception handler. -/
theorem C3_oversized_template (capture tpl : Image) (score : Nat → Nat → ℚ)
    (confidence : ℚ)
    (h : capture.height < tpl.height ∨ capture.width < tpl.width) :
    find_all_icon_coordinates true true capture tpl score confidence = [] ∧
    find_avatar_by_template true true capture tpl score confidence =
      .error .dimensionTooLarge := by
  constructor <;>
    simp [find_all_icon_coordinates, find_avatar_by_template, matchTemplate, if_pos h]

/-- Witness for C3 (amended) at a 5×5 capture and a 10×10 template. -/
theorem C3_oversized_template_witness :
    find_all_icon_coordinates true true ⟨5, 5⟩ ⟨10, 10⟩ (fun _ _ => 0) (4/5) = [] ∧
    find_avatar_by_template true true ⟨5, 5⟩ ⟨10, 10⟩ (fun _ _ => 0) (4/5) =
      .error .dimensionTooLarge :=
  C3_oversized_template ⟨5, 5⟩ ⟨10, 10⟩ (fun _ _ => 0) (4/5) (by left; decide)

/-- C5: with an existing, loadable template that fits inside the capture, the
all-matches scan of `find_avatar_by_template` produces a detection at a matrix
position iff its score is ≥ the confidence threshold (boundary-inclusive), and
the existence gate of best-match mode (`find_icon_coordinates`) produces a
result iff the best score is ≥ the threshold. -/
theorem C5_threshold_boundary_inclusive (capture tpl : Image)
    (s : Nat → Nat → ℚ) (confidence : ℚ)
    (hh : tpl.height ≤ capture.height) (hw : tpl.width ≤ capture.width) :
    (find_avatar_by_template true true capture tpl s confidence =
      .ok (templateDetections tpl (capture.height - tpl.height + 1)
        (capture.width - tpl.width + 1) s confidence)) ∧
    (∀ r c, r < capture.height - tpl.height + 1 → c < capture.width - tpl.width + 1 →
      ((∃ d ∈ templateDetections tpl (capture.height - tpl.height + 1)
          (capture.width - tpl.width + 1) s confidence, d.x = c ∧ d.y = r) ↔
        confidence ≤ s r c)) ∧
    ((find_icon_coordinates true true capture tpl s confidence).isSome ↔
      confidence ≤ matrixMax (capture.height - tpl.height + 1)
        (capture.width - tpl.width + 1) s) := by
  have hdim : ¬(capture.height < tpl.height ∨ capture.width < tpl.width) := by omega
  refine ⟨?_, ?_, ?_⟩
  · simp [find_avatar_by_template, matchTemplate, if_neg hdim]
  · intro r c hr hc
    constructor
    · rintro ⟨d, hd, hx, hy⟩
      rw [templateDetections, List.mem_filterMap] at hd
      obtain ⟨p, _, hp⟩ := hd
      by_cases hps : confidence ≤ s p.1 p.2
      · rw [if_pos hps] at hp
        have hpd := Option.some.inj hp
        have h1 : p.2 = c := by rw [← hx, ← hpd]; rfl
        have h2 : p.1 = r := by rw [← hy, ← hpd]; rfl
        rwa [h1, h2] at hps
      · rw [if_neg hps] at hp
        exact absurd hp (by simp)
    · intro hs
      refine ⟨mkDetection tpl s r c, ?_, rfl, rfl⟩
      rw [templateDetections, List.mem_filterMap]
      exact ⟨(r, c), (mem_rowMajorPositions _ _ r c).mpr ⟨hr, hc⟩, if_pos hs⟩
  · rw [find_icon_coordinates]
    simp only [Bool.true_eq_false, if_false]
    rw [matchTemplate, if_neg hdim]
    by_cases hmax : matrixMax (capture.height - tpl.height + 1)
        (capture.width - tpl.width + 1) s < confidence
    · simp [hmax, not_le.mpr hmax]
    · simp [hmax, not_lt.mp hmax]

/-- Witness for C5 at a 2×2 capture, 1×1 template, a score matrix with a single
entry equal to the threshold 4/5 at (0, 1), evaluated concretely. -/
theorem C5_threshold_boundary_inclusive_witness :
    (find_avatar_by_template true true ⟨2, 2⟩ ⟨1, 1⟩
      (fun r c => if r = 0 ∧ c = 1 then 4/5 else 0) (4/5) =
      .ok (templateDetections ⟨1, 1⟩ 2 2
        (fun r c => if r = 0 ∧ c = 1 then 4/5 else 0) (4/5))) ∧
    (∀ r c, r < 2 → c < 2 →
      ((∃ d ∈ templateDetections ⟨1, 1⟩ 2 2
          (fun r c => if r = 0 ∧ c = 1 then 4/5 else 0) (4/5), d.x = c ∧ d.y = r) ↔
        (4/5 : ℚ) ≤ (fun r c => if r = 0 ∧ c = 1 then (4/5 : ℚ) else 0) r c)) ∧
    ((find_icon_coordinates true true ⟨2, 2⟩ ⟨1, 1⟩
      (fun r c => if r = 0 ∧ c = 1 then 4/5 else 0) (4/5)).isSome ↔
      (4/5 : ℚ) ≤ matrixMax 2 2 (fun r c => if r = 0 ∧ c = 1 then 4/5 else 0)) :=
  C5_threshold_boundary_inclusive ⟨2, 2⟩ ⟨1, 1⟩
    (fun r c => if r = 0 ∧ c = 1 then 4/5 else 0) (4/5) (by decide) (by decide)

/-- Folding `dedupeStep` over detections that are all far from the accumulator
and pairwise far from each other just appends them: no proximity match ever
fires. -/
theorem foldl_dedupeStep_of_far (m : ℚ) :
    ∀ (L acc : List DDetection),
      (∀ e ∈ acc, ∀ d ∈ L, closeTo d e m = false) →
      L.Pairwise (fun a b => closeTo b a m = false) →
      L.foldl (dedupeStep m) acc = acc ++ L := by
  intro L
  induction L with
  | nil => intro acc _ _; simp
  | cons d L ih =>
    intro acc hfar hpw
    have hnone : acc.find? (fun e => closeTo d e m) = none :=
      List.find?_eq_none.mpr (fun e he => by
        simp [hfar e he d (List.mem_cons_self d L)])
    have hstep : dedupeStep m acc d = acc ++ [d] := by rw [dedupeStep, hnone]
    rw [List.foldl_cons, hstep,
      ih (acc ++ [d])
        (by
          intro e he d' hd'
          rcases List.mem_append.mp he with h | h
          · exact hfar e h d' (List.mem_cons_of_mem d hd')
          · have : e = d := by simpa using h
            subst this
            exact (List.pairwise_cons.mp hpw).1 d' hd')
        (List.Pairwise.of_cons hpw)]
    simp

/-- When every detection carries the same confidence, the accumulation loop
never replaces an accepted detection, and its accumulator stays pairwise
separated and keeps that confidence. -/
theorem foldl_dedupeStep_sep (m c : ℚ) :
    ∀ (L acc : List DDetection),
      (∀ x ∈ acc, x.confidence = c) → (∀ x ∈ L, x.confidence = c) →
      acc.Pairwise (fun a b => closeTo b a m = false) →
      ((L.foldl (dedupeStep m) acc).Pairwise (fun a b => closeTo b a m = false) ∧
        ∀ x ∈ L.foldl (dedupeStep m) acc, x.confidence = c) := by
  intro L
  induction L with
  | nil => intro acc hacc _ hpw; exact ⟨hpw, hacc⟩
  | cons d L ih =>
    intro acc hacc hL hpw
    rw [List.foldl_cons]
    have hdc : d.confidence = c := hL d (List.mem_cons_self d L)
    have hLc : ∀ x ∈ L, x.confidence = c := fun x hx => hL x (List.mem_cons_of_mem d hx)
    match hfind : acc.find? (fun e => closeTo d e m) with
    | some e =>
        have he : e ∈ acc := List.mem_of_find?_eq_some hfind
        have hec : e.confidence = c := hacc e he
        have hstep : dedupeStep m acc d = acc := by
          rw [dedupeStep, hfind]
          exact if_neg (by rw [hec, hdc]; exact lt_irrefl c)
        rw [hstep]
        exact ih acc hacc hLc hpw
    | none =>
        have hstep : dedupeStep m acc d = acc ++ [d] := by rw [dedupeStep, hfind]
        rw [hstep]
        refine ih (acc ++ [d]) ?_ hLc ?_
        · intro x hx
          rcases List.mem_append.mp hx with h | h
          · exact hacc x h
          · have : x = d := by simpa using h
            subst this; exact hdc
        · rw [List.pairwise_append]
          refine ⟨hpw, by simp, ?_⟩
          intro a ha b hb
          have : b = d := by simpa using hb
          subst this
          have := List.find?_eq_none.mp hfind a ha
          simpa using this

/-- C4 counterexample: three collinear detections 40 apart with a
higher-confidence middle one.  The first pass keeps the pair
(80, 0, 1/2), (40, 0, 9/10) — 40 < 50 apart — because the replace-and-append
rule moved the winner to the end; a second pass then removes one of them, so
`dedupe(dedupe(D)) ≠ dedupe(D)` at `min_distance = 50`. -/
theorem C4_counterexample_not_idempotent :
    remove_duplicate_detections
      (remove_duplicate_detections
        [⟨0, 0, 1/2⟩, ⟨80, 0, 1/2⟩, ⟨40, 0, 9/10⟩] 50) 50 ≠
      remove_duplicate_detections
        [⟨0, 0, 1/2⟩, ⟨80, 0, 1/2⟩, ⟨40, 0, 9/10⟩] 50 := by
  have h1 : remove_duplicate_detections
      [(⟨0, 0, 1/2⟩ : DDetection), ⟨80, 0, 1/2⟩, ⟨40, 0, 9/10⟩] 50 =
      [⟨80, 0, 1/2⟩, ⟨40, 0, 9/10⟩] := by
    with_unfolding_all rfl
  have h2 : remove_duplicate_detections
      [(⟨80, 0, 1/2⟩ : DDetection), ⟨40, 0, 9/10⟩] 50 = [⟨40, 0, 9/10⟩] := by
    with_unfolding_all rfl
  intro h
  rw [h1, h2] at h
  exact absurd (congrArg List.length h) (by simp)

/-- C4 (amended): the duplicate resolver is idempotent on every input whose
detections all carry one common confidence value (then the replacement rule
never fires and the output is pairwise separated); with unequal confidences
the replace-and-append rule can leave two near-coincident detections in the
output and idempotence fails. -/
theorem C4_dedupe_idempotent_equal_confidence (D : List DDetection) (m c : ℚ)
    (hconf : ∀ d ∈ D, d.confidence = c) :
    remove_duplicate_detections (remove_duplicate_detections D m) m =
      remove_duplicate_detections D m := by
  by_cases hlen : D.length ≤ 1
  · have h1 : remove_duplicate_detections D m = D := by
      rw [remove_duplicate_detections, if_pos hlen]
    rw [h1]
    exact h1
  · have h1 : remove_duplicate_detections D m = D.foldl (dedupeStep m) [] := by
      rw [remove_duplicate_detections, if_neg hlen]
    have hsep := foldl_dedupeStep_sep m c D [] (by simp) hconf (by simp)
    rw [h1]
    by_cases hlen2 : (D.foldl (dedupeStep m) []).length ≤ 1
    · rw [remove_duplicate_detections, if_pos hlen2]
    · rw [remove_duplicate_detections, if_neg hlen2]
      rw [foldl_dedupeStep_of_far m (D.foldl (dedupeStep m) []) [] (by simp) hsep.1]
      simp

/-- Witness for C4 (amended): two far-apart detections of equal confidence. -/
theorem C4_dedupe_idempotent_equal_confidence_witness :
    remove_duplicate_detections
      (remove_duplicate_detections [⟨0, 0, 1/2⟩, ⟨80, 0, 1/2⟩] 50) 50 =
      remove_duplicate_detections [⟨0, 0, 1/2⟩, ⟨80, 0, 1/2⟩] 50 :=
  C4_dedupe_idempotent_equal_confidence [⟨0, 0, 1/2⟩, ⟨80, 0, 1/2⟩] 50 (1/2)
    (by simp)

/-- C2: absent credentials, a raising network call, a non-200 response, and an
HTTP response body that fails JSON parsing each yield the zero-confidence,
not-related verdict from both `contains_keyword` and `contains_any_keyword`.
Every exceptional path of the source is caught inside the functions, which the
embedding reflects by being total: no input raises to the caller. -/
theorem C2_gateway_soft_failures (imgValid hasKey : Bool) (http : HttpOutcome)
    (h : hasKey = false ∨ http = .requestRaises ∨
      (∃ st body, http = .response st body ∧ st ≠ 200) ∨
      (∃ st, http = .response st .raisesOnParse)) :
    (contains_keyword imgValid hasKey http).is_related = false ∧
    (contains_keyword imgValid hasKey http).confidence = 0 ∧
    (contains_any_keyword imgValid hasKey http).is_related_to_any = false ∧
    (contains_any_keyword imgValid hasKey http).confidence = 0 := by
  cases imgValid with
  | false => simp [contains_keyword, contains_any_keyword]
  | true =>
    cases hasKey with
    | false => simp [contains_keyword, contains_any_keyword]
    | true =>
      rcases h with h | h | ⟨st, body, rfl, hst⟩ | ⟨st, h⟩
      · exact absurd h (by simp)
      · subst h; simp [contains_keyword, contains_any_keyword]
      · simp [contains_keyword, contains_any_keyword, hst]
      · subst h
        by_cases hst : st = 200
        · subst hst; simp [contains_keyword, contains_any_keyword]
        · simp [contains_keyword, contains_any_keyword, hst]

/-- Witness for C2: missing API key together with a raising network call. -/
theorem C2_gateway_soft_failures_witness :
    (contains_keyword true false .requestRaises).is_related = false ∧
    (contains_keyword true false .requestRaises).confidence = 0 ∧
    (contains_any_keyword true false .requestRaises).is_related_to_any = false ∧
    (contains_any_keyword true false .requestRaises).confidence = 0 :=
  C2_gateway_soft_failures true false .requestRaises (Or.inl rfl)

/-- When no detection ever qualifies and every scroll succeeds, the search
loop runs one pass per remaining attempt plus the current one, performs no
click, and fails. -/
theorem keywordSearchLoop_all_fail (passes : Nat → List AvatarDetection)
    (scrollOk : Nat → Bool) (rc : Bool)
    (hq : ∀ j, ∀ d ∈ passes j, detectionQualifies d = false)
    (hs : ∀ j, scrollOk j = true) :
    ∀ r k, keywordSearchLoop passes scrollOk rc r k = (.failure, r + 1, []) := by
  have hnone : ∀ k, (passes k).find? detectionQualifies = none := fun k =>
    List.find?_eq_none.mpr (fun d hd => by simp [hq k d hd])
  intro r
  induction r with
  | zero =>
    intro k
    rw [keywordSearchLoop, hnone k]
  | succ r ih =>
    intro k
    rw [keywordSearchLoop, hnone k, hs k]
    simp [ih (k + 1)]

/-- C7: with the environment guards satisfied, if no detection qualifies on
any pass and every scroll gesture succeeds, the action performs exactly
`max_scroll_attempts + 1` search passes starting from attempt 0 and returns
failure; the loop is a total function, so the recursion terminates. -/
theorem C7_scroll_retry_attempt_count (passes : Nat → List AvatarDetection)
    (scrollOk : Nat → Bool) (rc : Bool) (n : Nat)
    (hq : ∀ j, ∀ d ∈ passes j, detectionQualifies d = false)
    (hs : ∀ j, scrollOk j = true) :
    execute_avatar_keyword_click_action true true true passes scrollOk rc n 0 =
      (.failure, n + 1, []) := by
  show keywordSearchLoop passes scrollOk rc (n - 0) 0 = (.failure, n + 1, [])
  rw [Nat.sub_zero]
  exact keywordSearchLoop_all_fail passes scrollOk rc hq hs n 0

/-- Witness for C7 with `max_scroll_attempts = 2` and empty passes: exactly 3
search attempts, then failure. -/
theorem C7_scroll_retry_attempt_count_witness :
    execute_avatar_keyword_click_action true true true
      (fun _ => []) (fun _ => true) false 2 0 = (.failure, 3, []) :=
  C7_scroll_retry_attempt_count (fun _ => []) (fun _ => true) false 2
    (fun _ d hd => absurd hd (List.not_mem_nil d)) (fun _ => rfl)

/-- A non-failure outcome of the search loop comes from some pass whose first
qualifying detection was accepted, and the outcome is that detection's bundle
or bare success according to `return_coordinates`. -/
theorem keywordSearchLoop_accept (passes : Nat → List AvatarDetection)
    (scrollOk : Nat → Bool) (rc : Bool) :
    ∀ r k, (keywordSearchLoop passes scrollOk rc r k).1 ≠ .failure →
      ∃ j d, (passes j).find? detectionQualifies = some d ∧
        detectionQualifies d = true ∧
        (keywordSearchLoop passes scrollOk rc r k).1 =
          (if rc then ClickOutcome.coords (mkCoordBundle d) else .success) := by
  intro r
  induction r with
  | zero =>
    intro k h
    cases hfind : (passes k).find? detectionQualifies with
    | some d =>
        refine ⟨k, d, hfind, List.find?_some hfind, ?_⟩
        rw [keywordSearchLoop, hfind]
    | none =>
        exfalso
        apply h
        rw [keywordSearchLoop, hfind]
  | succ r ih =>
    intro k h
    cases hfind : (passes k).find? detectionQualifies with
    | some d =>
        refine ⟨k, d, hfind, List.find?_some hfind, ?_⟩
        rw [keywordSearchLoop, hfind]
    | none =>
        cases hscroll : scrollOk k with
        | true =>
            have h' : (keywordSearchLoop passes scrollOk rc r (k + 1)).1 ≠ .failure := by
              intro hc
              apply h
              rw [keywordSearchLoop, hfind, hscroll]
              simpa using hc
            obtain ⟨j, d, h1, h2, h3⟩ := ih (k + 1) h'
            refine ⟨j, d, h1, h2, ?_⟩
            rw [keywordSearchLoop, hfind, hscroll]
            simpa using h3
        | false =>
            exfalso
            apply h
            rw [keywordSearchLoop, hfind, hscroll]
            simp

/-- C9: the action reports success or returns coordinates only when the
accepted detection's gateway verdict is related (`is_related` or
`is_related_to_any` after the `.get` merge) AND has confidence ≥ 70; a
below-70 or not-related verdict is never the accepted one. -/
theorem C9_acceptance_requires_threshold (passes : Nat → List AvatarDetection)
    (scrollOk : Nat → Bool) (rc : Bool) (n k : Nat)
    (h : (execute_avatar_keyword_click_action true true true
      passes scrollOk rc n k).1 ≠ .failure) :
    ∃ j d, (passes j).find? detectionQualifies = some d ∧
      (d.verdict.is_related = true ∨ d.verdict.is_related_to_any = true) ∧
      70 ≤ d.verdict.confidence ∧
      (execute_avatar_keyword_click_action true true true passes scrollOk rc n k).1 =
        (if rc then ClickOutcome.coords (mkCoordBundle d) else .success) := by
  have h' : (keywordSearchLoop passes scrollOk rc (n - k) k).1 ≠ .failure := h
  obtain ⟨j, d, h1, h2, h3⟩ := keywordSearchLoop_accept passes scrollOk rc (n - k) k h'
  rw [detectionQualifies, Bool.and_eq_true, Bool.or_eq_true, decide_eq_true_eq] at h2
  exact ⟨j, d, h1, h2.1.imp (fun a => a) (fun a => a), h2.2, h3⟩

/-- Witness for C9: one detection with a related verdict at confidence 90 is
accepted and the action reports success. -/
theorem C9_acceptance_requires_threshold_witness :
    ∃ j d, ((fun (_ : Nat) => [(⟨100, 100, ⟨true, false, 90⟩⟩ : AvatarDetection)]) j).find?
        detectionQualifies = some d ∧
      (d.verdict.is_related = true ∨ d.verdict.is_related_to_any = true) ∧
      70 ≤ d.verdict.confidence ∧
      (execute_avatar_keyword_click_action true true true
        (fun _ => [⟨100, 100, ⟨true, false, 90⟩⟩]) (fun _ => true) false 6 0).1 =
        (if false then ClickOutcome.coords
          (mkCoordBundle ⟨100, 100, ⟨true, false, 90⟩⟩) else .success) := by
  have h := C9_acceptance_requires_threshold
    (fun _ => [⟨100, 100, ⟨true, false, 90⟩⟩]) (fun _ => true) false 6 0 (by decide)
  obtain ⟨j, d, h1, h2, h3, h4⟩ := h
  have hd : d = ⟨100, 100, ⟨true, false, 90⟩⟩ := by
    have := List.mem_of_find?_eq_some h1
    simpa using this
  subst hd
  exact ⟨j, _, h1, h2, h3, h4⟩

/-- C1: with `return_coordinates = true` and a qualifying detection at
chat-relative (100, 100) with verdict (related, confidence 90), the action
issues a pointer click at logical (710, 195) AND returns the coordinate
bundle: the click list is non-empty, contradicting "return rather than
click". -/
theorem C1_return_coordinates_also_clicks :
    execute_avatar_keyword_click_action true true true
      (fun _ => [⟨100, 100, ⟨true, false, 90⟩⟩]) (fun _ => true) true 6 0 =
      (.coords ⟨710, 195, 1420, 390, 100, 100, ⟨true, false, 90⟩⟩, 1, [(710, 195)]) := by
  decide

/-- C8: the interpreter halts at the first failing step — with a failing step
at index i (0-based) and all earlier steps truthy, exactly i + 1 steps execute
and the run reports failure — and a run reports success exactly when every
step's result is truthy. -/
theorem C8_fail_fast_and_success_characterization :
    (∀ (plan : List StepResult) (i : Nat), plan[i]? = some .fail →
      (∀ j r, j < i → plan[j]? = some r → stepTruthy r = true) →
      execute_action_plan plan = (false, i + 1)) ∧
    (∀ plan : List StepResult,
      (execute_action_plan plan).1 = true ↔ ∀ r ∈ plan, stepTruthy r = true) := by
  constructor
  · intro plan
    induction plan with
    | nil => intro i hi _; simp at hi
    | cons r rs ih =>
      intro i hi hprev
      cases i with
      | zero =>
          have : r = .fail := by simpa using hi
          subst this
          simp [execute_action_plan, stepTruthy]
      | succ i =>
          have hr : stepTruthy r = true := hprev 0 r (Nat.succ_pos i) (by simp)
          have h2 := ih i (by simpa using hi)
            (fun j r' hj hjr => hprev (j + 1) r' (Nat.succ_lt_succ hj) (by simpa using hjr))
          simp [execute_action_plan, hr, h2]
  · intro plan
    induction plan with
    | nil => simp [execute_action_plan]
    | cons r rs ih =>
      cases hr : stepTruthy r with
      | true => simp [execute_action_plan, hr, ih]
      | false => simp [execute_action_plan, hr]

/-- Witness for C8: a five-step plan whose third step fails executes exactly
three steps and reports failure. -/
theorem C8_fail_fast_witness :
    execute_action_plan [.ok, .ok, .fail, .ok, .ok] = (false, 3) :=
  C8_fail_fast_and_success_characterization.1 [.ok, .ok, .fail, .ok, .ok] 2 rfl
    (by
      intro j r hj hr
      interval_cases j <;> (simp at hr; subst hr; rfl))

/-- C10: the shipped coordinate table makes `list_coordinates` raise
`ValueError` (its first value is a 29-character template-path string); any
table containing a string value that is not two characters long does the same;
and the listing completes exactly when every value unpacks as a two-element
sequence. -/
theorem C10_list_coordinates_unpacking :
    list_coordinates COORDINATES = .error .valueError ∧
    (∀ (table : List (String × PyCoordVal)) (name s : String),
      (name, PyCoordVal.str s) ∈ table → s.length ≠ 2 →
      list_coordinates table = .error .valueError) ∧
    (∀ table : List (String × PyCoordVal),
      list_coordinates table = .ok () ↔ ∀ p ∈ table, unpacksAsPair p.2 = true) := by
  refine ⟨by rfl, ?_, ?_⟩
  · intro table
    induction table with
    | nil => intro name s h _; simp at h
    | cons p rest ih =>
      obtain ⟨n, v⟩ := p
      intro name s hmem hlen
      rcases List.mem_cons.mp hmem with h | h
      · have h2 : v = PyCoordVal.str s := (Prod.mk.inj h.symm).2
        subst h2
        rw [list_coordinates, if_neg hlen]
      · cases v with
        | pair x y =>
            rw [list_coordinates]
            exact ih name s h hlen
        | str s' =>
            rw [list_coordinates]
            by_cases h2 : s'.length = 2
            · rw [if_pos h2]
              exact ih name s h hlen
            · rw [if_neg h2]
  · intro table
    induction table with
    | nil => simp [list_coordinates]
    | cons p rest ih =>
      obtain ⟨n, v⟩ := p
      cases v with
      | pair x y =>
          rw [list_coordinates]
          simpa [unpacksAsPair] using ih
      | str s =>
          rw [list_coordinates]
          by_cases h2 : s.length = 2
          · rw [if_pos h2]
            simp [unpacksAsPair, h2, ih]
          · rw [if_neg h2]
            simp [unpacksAsPair, h2]

/-- Witness for C10: a one-entry table holding the shipped play-button
template path raises `ValueError`. -/
theorem C10_list_coordinates_unpacking_witness :
    list_coordinates [("play_button", .str "game_elements/play_button.png")] =
      .error .valueError :=
  C10_list_coordinates_unpacking.2.1
    [("play_button", .str "game_elements/play_button.png")]
    "play_button" "game_elements/play_button.png" (by simp) (by decide)

end GameAutomation
